import Mathlib

/-!
Shallow embedding of the local-orchestration account code
(packages/orchestration/src/exos/local-chain-facade.js: the LocalChainFacade
kit, the Local Orchestration Account Kit, and the send contract wiring).

Pure data and the message-building / watcher logic are translated into
executable Lean definitions; asynchronous settlement is modelled with
`Except String` for settled outcomes and, where wall-clock time matters,
with time-indexed vow states.  Parts of the repository that the staged
sources only reference (the vow tools, the chain hub's connection
directory, the timestamp helper, the clock-skew constant) are modelled
from the specification and are marked as such in their doc comments.
-/

namespace LocalOrch

/-- ChainAddress record: value, encoding and chainId, as assembled by
`makeChildNodeWatcher.onFulfilled` and stored in the kit's state. -/
structure ChainAddress where
  value : String
  encoding : String
  chainId : String
deriving DecidableEq, Repr

/-- Coin record as built by `helper.amountToCoin`: a denom and a decimal
string amount. -/
structure Coin where
  denom : String
  amount : String
deriving DecidableEq, Repr

/-- AmountArg: either a DenomAmount (has a `denom` property) or an
ERTP-style Amount (has a `brand` property and no `denom`). -/
inductive AmountArg where
  | denomAmount (denom : String) (value : Nat)
  | ertpAmount (brand : String) (value : Nat)
deriving DecidableEq, Repr

/-- Whether the amount carries a `denom` property (the JS check
`'denom' in amount`). -/
def hasDenom : AmountArg → Bool
  | .denomAmount _ _ => true
  | .ertpAmount _ _ => false

/-- helper.amountToCoin: amounts without a `denom` property are refused
with `Brands not currently supported.` before any bridge interaction;
denom amounts become `{ denom, amount: String(value) }`. -/
def amountToCoin : AmountArg → Except String Coin
  | .denomAmount denom value => .ok { denom := denom, amount := toString value }
  | .ertpAmount _ _ => .error "Brands not currently supported."

/-- MsgSend payload of `/cosmos.bank.v1beta1.MsgSend` as built by
`holder.send` and `holder.sendAll`. -/
structure MsgSend where
  amount : List Coin
  toAddress : String
  fromAddress : String
deriving DecidableEq, Repr

/-- MsgDelegate payload of `/cosmos.staking.v1beta1.MsgDelegate` as built
by `holder.delegate`. -/
structure MsgDelegate where
  amount : Coin
  validatorAddress : String
  delegatorAddress : String
deriving DecidableEq, Repr

/-- MsgUndelegate payload of `/cosmos.staking.v1beta1.MsgUndelegate` as
built by `holder.undelegate`. -/
structure MsgUndelegate where
  amount : Coin
  validatorAddress : String
  delegatorAddress : String
deriving DecidableEq, Repr

/-- Messages submitted to the bridge through `executeTx`. -/
inductive CosmosMsg where
  | bankSend (m : MsgSend)
  | stakingDelegate (m : MsgDelegate)
  | stakingUndelegate (m : MsgUndelegate)
deriving DecidableEq, Repr

/-- Durable state of one Local Orchestration Account Kit, as produced by
its init function: the underlying account and packet tools are opaque
handles, the address is the ChainAddress supplied at creation. -/
structure HolderState where
  account : Nat
  address : ChainAddress
  topicKit : Nat
  packetTools : Nat
deriving DecidableEq, Repr

/-- The kit's init function: stores the supplied account handle, address
record, recorder kit and packet tools in durable state. -/
def initHolderState (account : Nat) (address : ChainAddress)
    (topicKit : Nat) (packetTools : Nat) : HolderState :=
  { account := account, address := address,
    topicKit := topicKit, packetTools := packetTools }

/-- holder.getAddress: returns the state's address record. -/
def holderGetAddress (st : HolderState) : ChainAddress :=
  st.address

/-- Interface guard pattern of extractFirstResultWatcher.onFulfilled,
`M.call([M.record()])`: the fulfillment must be an array of exactly one
record.  With the results as opaque records the elementwise record check
is trivially met, so the array pattern pins the length to one. -/
def matchesOneRecordArray {α : Type} (results : List α) : Bool :=
  results.length == 1

/-- Diagnostic the exo guard raises when a method argument does not
match its guard pattern.  The endo pattern-error text (which names the
method and the offending specimen) is elided to this marker; it shares
no text with the body's assertion message. -/
def guardViolationMsg : String :=
  "onFulfilled arg 0: Must match the method guard"

/-- Body of extractFirstResultWatcher.onFulfilled: asserts the results
array has exactly one entry and returns it; any other length is a failed
assertion.  The source's Fail template appends the offending results to
the message; that interpolated tail is elided here. -/
def extractFirstResultBody {α : Type} (results : List α) : Except String α :=
  match results with
  | [r] => .ok r
  | _ => .error "expected exactly one result"

/-- extractFirstResultWatcher.onFulfilled as the program invokes it: the
facet's interface guard `M.call([M.record()])` intercepts any fulfillment
that is not a one-element array, rejecting with a pattern-violation
diagnostic before the body runs; only a one-element array reaches the
body and its own length assertion. -/
def extractFirstResultWatcher {α : Type} (results : List α) : Except String α :=
  if matchesOneRecordArray results then extractFirstResultBody results
  else .error guardViolationMsg

/-- holder.delegate's settled outcome: `watch(executeTx([msg]),
extractFirstResultWatcher)` — a rejected bridge call propagates, a
fulfilled one goes through the guarded watcher. -/
def delegateResult {α : Type} (bridgeReply : Except String (List α)) :
    Except String α :=
  bridgeReply.bind extractFirstResultWatcher

/-- Message list for holder.delegate's single executeTx call. -/
def delegateMsg (st : HolderState) (validatorAddress : String) (value : Nat) :
    MsgDelegate :=
  { amount := { denom := "ubld", amount := toString value },
    validatorAddress := validatorAddress,
    delegatorAddress := st.address.value }

/-- Message list for holder.undelegate's single executeTx call. -/
def undelegateMsg (st : HolderState) (validatorAddress : String) (value : Nat) :
    MsgUndelegate :=
  { amount := { denom := "ubld", amount := toString value },
    validatorAddress := validatorAddress,
    delegatorAddress := st.address.value }

/-- Left-to-right conversion of a list of amounts to coins, stopping at
the first failure, mirroring `amounts.map(a => helper.amountToCoin(a))`
whose first throw aborts the whole map. -/
def coinsOf : List AmountArg → Except String (List Coin)
  | [] => .ok []
  | a :: rest => do
    let c ← amountToCoin a
    let cs ← coinsOf rest
    .ok (c :: cs)

/-- holder.send: the message list handed to executeTx, or the local
validation failure thrown while building it (before executeTx runs). -/
def sendTxMsgs (st : HolderState) (toAccount : ChainAddress)
    (amount : AmountArg) : Except String (List CosmosMsg) :=
  (amountToCoin amount).map fun coin =>
    [CosmosMsg.bankSend
      { amount := [coin], toAddress := toAccount.value,
        fromAddress := st.address.value }]

/-- holder.sendAll: the message list handed to executeTx, or the local
validation failure thrown while building it. -/
def sendAllTxMsgs (st : HolderState) (toAccount : ChainAddress)
    (amounts : List AmountArg) : Except String (List CosmosMsg) :=
  (coinsOf amounts).map fun coins =>
    [CosmosMsg.bankSend
      { amount := coins, toAddress := toAccount.value,
        fromAddress := st.address.value }]

/-- The executeTx bridge calls holder.send issues: one call with the built
messages, or none when local validation threw first. -/
def sendBridgeCalls (st : HolderState) (toAccount : ChainAddress)
    (amount : AmountArg) : List (List CosmosMsg) :=
  match sendTxMsgs st toAccount amount with
  | .ok msgs => [msgs]
  | .error _ => []

/-- The executeTx bridge calls holder.sendAll issues. -/
def sendAllBridgeCalls (st : HolderState) (toAccount : ChainAddress)
    (amounts : List AmountArg) : List (List CosmosMsg) :=
  match sendAllTxMsgs st toAccount amounts with
  | .ok msgs => [msgs]
  | .error _ => []

/-- holder.send's settled outcome: local failure rejects, otherwise the
bridge reply is watched with returnVoidWatcher (void on success). -/
def sendOutcome {α : Type} (st : HolderState) (toAccount : ChainAddress)
    (amount : AmountArg) (bridgeReply : Except String α) : Except String Unit :=
  match sendTxMsgs st toAccount amount with
  | .error e => .error e
  | .ok _ => bridgeReply.map fun _ => ()

/-- holder.sendAll's settled outcome. -/
def sendAllOutcome {α : Type} (st : HolderState) (toAccount : ChainAddress)
    (amounts : List AmountArg) (bridgeReply : Except String α) :
    Except String Unit :=
  match sendAllTxMsgs st toAccount amounts with
  | .error e => .error e
  | .ok _ => bridgeReply.map fun _ => ()

/-- TimeoutHeight record of a MsgTransfer. -/
structure TimeoutHeight where
  revisionHeight : Nat
  revisionNumber : Nat
deriving DecidableEq, Repr

/-- IBCMsgTransferOptions: optional timeoutHeight, timeoutTimestamp
(nanoseconds) and memo. -/
structure IBCTransferOptions where
  timeoutHeight : Option TimeoutHeight
  timeoutTimestamp : Option Nat
  memo : Option String
deriving DecidableEq, Repr

/-- Transfer channel of an IBC connection, as read from the connection
info by transferWatcher.onFulfilled. -/
structure TransferChannel where
  portId : String
  channelId : String
deriving DecidableEq, Repr

/-- Connection info record; only the transfer channel is consumed here. -/
structure ConnectionInfo where
  transferChannel : TransferChannel
deriving DecidableEq, Repr

/-- MsgTransfer payload of `/ibc.applications.transfer.v1.MsgTransfer` as
built by transferWatcher.onFulfilled. -/
structure MsgTransfer where
  sourcePort : String
  sourceChannel : String
  token : Coin
  sender : String
  receiver : String
  timeoutHeight : TimeoutHeight
  timeoutTimestamp : Nat
  memo : String
deriving DecidableEq, Repr

/-- Modelled from the spec: the connection directory (chain hub) is not
among the staged sources; per the spec it rejects with
`connection not found: <src><-><dst>` when no connection is registered
for the pair of chain ids, and yields the registered info otherwise. -/
def getConnectionInfo (directory : List ((String × String) × ConnectionInfo))
    (src dst : String) : Except String ConnectionInfo :=
  match directory.lookup (src, dst) with
  | some info => .ok info
  | none => .error ("connection not found: " ++ src ++ "<->" ++ dst)

/-- Nanoseconds per second, used by the timestamp helper. -/
def nanosecondsPerSecond : Nat := 1000000000

/-- Modelled from the spec: the timestamp helper (utils/time.js) is not
among the staged sources; per the spec the default transfer timeout is a
timestamp five minutes in the future, in nanoseconds. -/
def getTimeoutTimestampNS (nowSeconds : Nat) : Nat :=
  (nowSeconds + 5 * 60) * nanosecondsPerSecond

/-- holder.transfer's timeout selection:
`opts?.timeoutTimestamp ?? (opts?.timeoutHeight ? 0n :
E(timestampHelper).getTimeoutTimestampNS())`. -/
def timeoutTimestampFor (opts : Option IBCTransferOptions)
    (nowSeconds : Nat) : Nat :=
  match opts with
  | none => getTimeoutTimestampNS nowSeconds
  | some o =>
    match o.timeoutTimestamp with
    | some t => t
    | none =>
      match o.timeoutHeight with
      | some _ => 0
      | none => getTimeoutTimestampNS nowSeconds

/-- transferWatcher.onFulfilled's message construction: token from the
denom amount, sender from the account's address, receiver from the
destination, timeoutHeight defaulting to zeros, memo defaulting to
the empty string. -/
def buildTransferMsg (address : ChainAddress) (transferChannel : TransferChannel)
    (timeoutTimestamp : Nat) (opts : Option IBCTransferOptions)
    (denom : String) (value : Nat) (destination : ChainAddress) : MsgTransfer :=
  { sourcePort := transferChannel.portId,
    sourceChannel := transferChannel.channelId,
    token := { denom := denom, amount := toString value },
    sender := address.value,
    receiver := destination.value,
    timeoutHeight :=
      (opts.bind (fun o => o.timeoutHeight)).getD
        { revisionHeight := 0, revisionNumber := 0 },
    timeoutTimestamp := timeoutTimestamp,
    memo := (opts.bind (fun o => o.memo)).getD "" }

/-- holder.transfer up to the packet dispatch: reject brand amounts, look
up the connection for (account chainId, destination chainId) — a lookup
rejection fails the allVows fast, so transferWatcher never runs — then
build the MsgTransfer that transferWatcher hands to sendThenWaitForAck. -/
def transferMsg (st : HolderState)
    (directory : List ((String × String) × ConnectionInfo))
    (amount : AmountArg) (destination : ChainAddress)
    (opts : Option IBCTransferOptions) (nowSeconds : Nat) :
    Except String MsgTransfer :=
  match amount with
  | .ertpAmount _ _ => .error "ERTP Amounts not yet supported"
  | .denomAmount denom value => do
    let connectionInfo ←
      getConnectionInfo directory st.address.chainId destination.chainId
    let timeoutTimestamp := timeoutTimestampFor opts nowSeconds
    .ok (buildTransferMsg st.address connectionInfo.transferChannel
      timeoutTimestamp opts denom value destination)

/-- The transfer packets actually dispatched (via sendThenWaitForAck):
one when the watcher chain reaches it, none when an earlier step threw
or rejected. -/
def transferPacketsSent (st : HolderState)
    (directory : List ((String × String) × ConnectionInfo))
    (amount : AmountArg) (destination : ChainAddress)
    (opts : Option IBCTransferOptions) (nowSeconds : Nat) : List MsgTransfer :=
  match transferMsg st directory amount destination opts nowSeconds with
  | .ok m => [m]
  | .error _ => []

/-- Bool test for one string occurring inside another, used to state
"rejects with a message containing ...". -/
def leadsChars : List Char → List Char → Bool
  | [], _ => true
  | _ :: _, [] => false
  | p :: ps, t :: ts => (p == t) && leadsChars ps ts

/-- Whether the pattern occurs as a contiguous run of the text. -/
def hasSubChars : List Char → List Char → Bool
  | pat, [] => pat.isEmpty
  | pat, t :: ts => leadsChars pat (t :: ts) || hasSubChars pat ts

/-- Whether `pat` occurs inside `s`. -/
def containsText (s pat : String) : Bool :=
  hasSubChars pat.data s.data

/-- Observable state of a vow at one instant. -/
inductive VowState (α : Type) where
  | unsettled
  | fulfilled (v : α)
  | rejected (msg : String)
deriving DecidableEq, Repr

/-- Modelled from the spec: a resumable future observed over discrete
time — its settlement state at each instant of the timer service's
clock. -/
def TimedVow (α : Type) : Type :=
  Nat → VowState α

/-- Modelled from the spec: `watch(future, handler)` — the derived vow is
unsettled while the watched one is, adopts its rejection, and once it is
fulfilled adopts the vow the fulfilment handler returns. -/
def watchTimed {α β : Type} (v : TimedVow α) (onFulfilled : α → TimedVow β) :
    TimedVow β :=
  fun now =>
    match v now with
    | .unsettled => .unsettled
    | .rejected m => .rejected m
    | .fulfilled x => onFulfilled x now

/-- Modelled from the spec: `E(timerService).wakeAt(t)` fulfills with no
value once the timer service has reached instant `t`, and never
rejects. -/
def wakeAt (t : Nat) : TimedVow Unit :=
  fun now => if t ≤ now then .fulfilled () else .unsettled

/-- A bridge reply that arrives (fulfilled) at `ackTime`. -/
def bridgeReplyAt {α : Type} (ackTime : Nat) (reply : α) : TimedVow α :=
  fun now => if ackTime ≤ now then .fulfilled reply else .unsettled

/-- Timestamp proto carried by a MsgUndelegateResponse; the watcher uses
only the seconds (nanoseconds are ignored by the source). -/
structure TimestampProto where
  seconds : Nat
deriving DecidableEq, Repr

/-- MsgUndelegateResponse: the bridge reply to an undelegate message,
carrying the unbonding completion time. -/
structure MsgUndelegateResponse where
  completionTime : TimestampProto
deriving DecidableEq, Repr

/-- Modelled from the spec: maxClockSkew (utils/cosmos.js) is not among
the staged sources; the spec fixes no number for the clock-skew margin,
so ten minutes of seconds stands in — every theorem below treats it as
an opaque summand. -/
def maxClockSkew : Nat := 600

/-- returnVoidWatcher.onFulfilled: ignores its input and yields void
immediately. -/
def returnVoidWatcherTimed {α : Type} (_ : α) : TimedVow Unit :=
  fun _ => .fulfilled ()

/-- undelegateWatcher.onFulfilled: takes the completion time from the
single response, schedules `wakeAt(completionTime.seconds + maxClockSkew)`
and watches it with returnVoidWatcher.  The interface guard pins the
reply to a one-element array, so the single element is taken directly. -/
def undelegateWatcherOnFulfilled (response : MsgUndelegateResponse) :
    TimedVow Unit :=
  watchTimed (wakeAt (response.completionTime.seconds + maxClockSkew))
    returnVoidWatcherTimed

/-- holder.undelegate's returned vow, given a bridge acknowledgement that
arrives at `ackTime` carrying `response`: the executeTx reply watched by
undelegateWatcher. -/
def undelegateVow (ackTime : Nat) (response : MsgUndelegateResponse) :
    TimedVow Unit :=
  watchTimed (bridgeReplyAt ackTime response) undelegateWatcherOnFulfilled

/-- Result of invoking a method: either a synchronous throw or a returned
vow with its eventual settlement. -/
inductive CallResult (α : Type) where
  | thrown (msg : String)
  | vow (settled : Except String α)
deriving Repr

/-- Modelled from the spec: vowTools.asVow runs the thunk and returns a
vow; a throw inside the thunk becomes a rejection of the returned vow,
never a synchronous throw at the caller. -/
def asVowOf {α : Type} (thunk : Unit → Except String α) : CallResult α :=
  .vow (thunk ())

/-- holder.getBalances: asVow around a thunk that throws the Fail
template text `not yet implemented`, so the call returns a rejected
vow. -/
def holderGetBalances : CallResult (List (String × Nat)) :=
  asVowOf fun _ => .error "not yet implemented"

/-- holder.transferSteps: logs its arguments and throws inside asVow. -/
def holderTransferSteps (_amount : AmountArg) (_msg : String) :
    CallResult Unit :=
  asVowOf fun _ => .error "not yet implemented"

/-- invitationMakers.CloseAccount: `throw Error('not yet implemented')`
with no asVow wrapper — a synchronous throw. -/
def closeAccountCall : CallResult Unit :=
  .thrown "not yet implemented"

/-- Calls the holder operations make on their collaborators (the bridged
account, the packet tools). -/
inductive BridgeCall where
  | executeTx (account : Nat) (messages : List CosmosMsg)
  | accountDeposit (account : Nat) (payment : Nat)
  | accountWithdraw (account : Nat) (value : Nat)
  | accountGetBalance (account : Nat) (brand : Option String)
  | packetSend (packetTools : Nat) (msg : MsgTransfer)
  | packetMonitorTransfers (packetTools : Nat) (tap : Nat)
deriving DecidableEq, Repr

/-- Environment the operations read: the registered connections and the
current time used for default transfer timeouts. -/
structure Env where
  directory : List ((String × String) × ConnectionInfo)
  nowSeconds : Nat

/-- Holder operations that touch durable state or collaborators. -/
inductive HolderOp where
  | deposit (payment : Nat)
  | withdraw (value : Nat)
  | delegate (validatorAddress : String) (value : Nat)
  | undelegate (validatorAddress : String) (value : Nat)
  | send (toAccount : ChainAddress) (amount : AmountArg)
  | sendAll (toAccount : ChainAddress) (amounts : List AmountArg)
  | transfer (amount : AmountArg) (destination : ChainAddress)
      (opts : Option IBCTransferOptions)
  | getBalance (denom : String)
  | monitorTransfers (tap : Nat)

/-- One holder operation as the source writes it: reads `this.state`,
issues its collaborator calls, and returns — no holder method assigns to
`this.state`, so the state component is returned as read. -/
def holderStep (env : Env) (st : HolderState) :
    HolderOp → HolderState × List BridgeCall
  | .deposit payment => (st, [.accountDeposit st.account payment])
  | .withdraw value => (st, [.accountWithdraw st.account value])
  | .delegate validatorAddress value =>
    (st, [.executeTx st.account
      [.stakingDelegate (delegateMsg st validatorAddress value)]])
  | .undelegate validatorAddress value =>
    (st, [.executeTx st.account
      [.stakingUndelegate (undelegateMsg st validatorAddress value)]])
  | .send toAccount amount =>
    (st, match sendTxMsgs st toAccount amount with
      | .ok msgs => [.executeTx st.account msgs]
      | .error _ => [])
  | .sendAll toAccount amounts =>
    (st, match sendAllTxMsgs st toAccount amounts with
      | .ok msgs => [.executeTx st.account msgs]
      | .error _ => [])
  | .transfer amount destination opts =>
    (st, match transferMsg st env.directory amount destination opts
        env.nowSeconds with
      | .ok m => [.packetSend st.packetTools m]
      | .error _ => [])
  | .getBalance _ => (st, [.accountGetBalance st.account none])
  | .monitorTransfers tap => (st, [.packetMonitorTransfers st.packetTools tap])

/-- State reached after a sequence of holder operations. -/
def holderRun (env : Env) (st : HolderState) (ops : List HolderOp) :
    HolderState :=
  ops.foldl (fun s op => (holderStep env s op).1) st

/-- AssetInfo entry from agoricNames.vbankAsset. -/
structure AssetInfo where
  denom : String
  brandName : String
deriving DecidableEq, Repr

/-- Durable state of the LocalChainFacade: the chain info given at
creation and the cached vbank asset list (absent until first filled). -/
structure FacadeState where
  chainId : String
  vbankAssets : Option (List AssetInfo)
deriving DecidableEq, Repr

/-- public.getVBankAssetInfo composed with vbankAssetValuesWatcher: when
the cache is filled, return it without looking anything up; otherwise
issue the agoricNames lookup (whose fulfilment is `lookupResult`), store
the values in state, and return them.  Yields the new state, the
returned asset list, and whether a lookup was issued. -/
def getVBankAssetInfo (st : FacadeState) (lookupResult : List AssetInfo) :
    FacadeState × List AssetInfo × Bool :=
  match st.vbankAssets with
  | some assets => (st, assets, false)
  | none => ({ st with vbankAssets := some lookupResult }, lookupResult, true)

/-- Passable specimens as far as the SingleAmountRecord pattern needs to
distinguish them. -/
inductive Passable where
  | amount (brandName : String) (value : Nat)
  | str (s : String)
  | natVal (n : Nat)
deriving DecidableEq, Repr

/-- Whether a specimen matches AmountShape (a brand/value amount
record). -/
def matchesAmountShape : Passable → Bool
  | .amount _ _ => true
  | _ => false

/-- Matcher semantics of `M.recordOf(M.string(), AmountShape,
numPropertiesLimit 1)` on a copyRecord (a list of string-keyed fields):
every key matches M.string() — trivially so for copyRecord keys — every
value matches AmountShape, and the number of properties is bounded by
the limit. -/
def matchesRecordOfAmount (r : List (String × Passable)) : Bool :=
  decide (r.length ≤ 1) && r.all fun kv => matchesAmountShape kv.2

/-- Matcher semantics of `M.not(harden(empty record))` on a copyRecord:
it matches exactly the records that are not the empty record. -/
def matchesNotEmptyRecord (r : List (String × Passable)) : Bool :=
  !r.isEmpty

/-- SingleAmountRecord: the conjunction (M.and) of the two matchers
above, exactly as the source composes them. -/
def matchesSingleAmountRecord (r : List (String × Passable)) : Bool :=
  matchesRecordOfAmount r && matchesNotEmptyRecord r

/-! Concrete fixtures used to instantiate theorems with hypotheses. -/

/-- Example account address on the local chain. -/
def exAddress : ChainAddress :=
  { value := "agoric1sender", encoding := "bech32", chainId := "agoriclocal" }

/-- Example kit state. -/
def exState : HolderState := initHolderState 1 exAddress 2 3

/-- Example destination with a registered connection. -/
def exDestination : ChainAddress :=
  { value := "cosmos1pleab", encoding := "bech32", chainId := "cosmoshub-4" }

/-- Destination on a chain with no registered connection. -/
def fakeDestination : ChainAddress :=
  { value := "fakenet1pleab", encoding := "bech32", chainId := "fakenet" }

/-- Example registered connection and directory. -/
def exConnection : ConnectionInfo :=
  { transferChannel := { portId := "transfer", channelId := "channel-1" } }

/-- Directory holding one connection, agoriclocal to cosmoshub-4. -/
def exDirectory : List ((String × String) × ConnectionInfo) :=
  [(("agoriclocal", "cosmoshub-4"), exConnection)]

/-- The MsgTransfer the pipeline builds for the example inputs. -/
def exTransferMsg : MsgTransfer :=
  { sourcePort := "transfer", sourceChannel := "channel-1",
    token := { denom := "ubld", amount := "1000000" },
    sender := "agoric1sender", receiver := "cosmos1pleab",
    timeoutHeight := { revisionHeight := 0, revisionNumber := 0 },
    timeoutTimestamp := 300000000000, memo := "" }

/-! Helper lemmas. -/

/-- A list is a leading run of itself followed by anything. -/
theorem leadsChars_append (l t : List Char) : leadsChars l (l ++ t) = true := by
  induction l with
  | nil => rfl
  | cons a as ih => simp [leadsChars, ih]

/-- A pattern occurs in any text that starts with it. -/
theorem hasSubChars_self_append (pat rest : List Char) :
    hasSubChars pat (pat ++ rest) = true := by
  cases pat with
  | nil =>
    cases rest with
    | nil => rfl
    | cons t ts => simp [hasSubChars, leadsChars]
  | cons p ps => simp [hasSubChars, leadsChars, leadsChars_append]

/-- A string contains every string it starts with. -/
theorem containsText_of_append (pre suf : String) :
    containsText (pre ++ suf) pre = true := by
  unfold containsText
  rw [String.data_append]
  exact hasSubChars_self_append _ _

/-- Left-to-right coin conversion fails with the brand message as soon as
the list holds an amount without a denom. -/
theorem coinsOf_error_of_missing_denom (amounts : List AmountArg)
    (h : ∃ a ∈ amounts, hasDenom a = false) :
    coinsOf amounts = Except.error "Brands not currently supported." := by
  induction amounts with
  | nil => simp at h
  | cons a rest ih =>
    rcases h with ⟨b, hb, hbd⟩
    rcases List.mem_cons.mp hb with h1 | h2
    · subst h1
      cases b with
      | denomAmount d v => simp [hasDenom] at hbd
      | ertpAmount brand v => simp [coinsOf, amountToCoin, bind, Except.bind]
    · cases a with
      | denomAmount d v =>
        simp [coinsOf, amountToCoin, bind, Except.bind, ih ⟨b, h2, hbd⟩]
      | ertpAmount brand v => simp [coinsOf, amountToCoin, bind, Except.bind]

/-- Coin conversion of an all-denom list succeeds, in input order. -/
theorem coinsOf_denom_list (pairs : List (String × Nat)) :
    coinsOf (pairs.map fun p => AmountArg.denomAmount p.1 p.2)
      = Except.ok (pairs.map fun p => Coin.mk p.1 (toString p.2)) := by
  induction pairs with
  | nil => rfl
  | cons p rest ih => simp [coinsOf, amountToCoin, bind, Except.bind, ih]

/-- The state component of every holder step is the state it read. -/
theorem holderStep_state (env : Env) (st : HolderState) (op : HolderOp) :
    (holderStep env st op).1 = st := by
  cases op <;> rfl

/-- Running any sequence of holder operations leaves the state as it
started. -/
theorem holderRun_state (env : Env) (st : HolderState) (ops : List HolderOp) :
    holderRun env st ops = st := by
  induction ops generalizing st with
  | nil => rfl
  | cons op rest ih =>
    show holderRun env ((holderStep env st op).1) rest = st
    rw [holderStep_state, ih]

/-! Claim theorems. -/

/-- C1: for every undelegate call whose bridge reply carries a
completionTime, the returned vow never settles before
completionTime.seconds + maxClockSkew has been reached by the timer
service; once the timer has reached that instant (and the bridge
acknowledgement has arrived) it settles with void, and it never
rejects — so it resolves only after both the bridge ack and the elapsed
unbonding period. -/
theorem undelegate_settles_void_only_after_ack_and_unbond
    (ackTime : Nat) (response : MsgUndelegateResponse) (now : Nat) :
    (undelegateVow ackTime response now = VowState.fulfilled () ↔
      ackTime ≤ now ∧ response.completionTime.seconds + maxClockSkew ≤ now)
    ∧ (now < response.completionTime.seconds + maxClockSkew →
      undelegateVow ackTime response now = VowState.unsettled)
    ∧ (∀ m, undelegateVow ackTime response now ≠ VowState.rejected m) := by
  simp only [undelegateVow, watchTimed, bridgeReplyAt, undelegateWatcherOnFulfilled,
    wakeAt, returnVoidWatcherTimed]
  by_cases h1 : ackTime ≤ now <;>
    by_cases h2 : response.completionTime.seconds + maxClockSkew ≤ now <;>
    simp [h1, h2]

/-- C2 (amended): for every transfer call with a denom-carrying amount
where no connection is registered between the account's chain id and the
destination's chain id, the call rejects with a message containing
`connection not found: <src><-><dst>` and the transfer-message-building
and sending step is never reached — no packet is dispatched. -/
theorem transfer_unknown_connection_rejects_before_send
    (st : HolderState) (directory : List ((String × String) × ConnectionInfo))
    (denom : String) (value : Nat) (destination : ChainAddress)
    (opts : Option IBCTransferOptions) (nowSeconds : Nat)
    (h : directory.lookup (st.address.chainId, destination.chainId) = none) :
    transferMsg st directory (AmountArg.denomAmount denom value) destination opts nowSeconds
      = Except.error
          ("connection not found: " ++ st.address.chainId ++ "<->" ++ destination.chainId)
    ∧ containsText
        ("connection not found: " ++ st.address.chainId ++ "<->" ++ destination.chainId)
        "connection not found" = true
    ∧ transferPacketsSent st directory (AmountArg.denomAmount denom value) destination opts
        nowSeconds = [] := by
  have hmsg : transferMsg st directory (AmountArg.denomAmount denom value) destination opts
      nowSeconds
      = Except.error
          ("connection not found: " ++ st.address.chainId ++ "<->" ++ destination.chainId) := by
    simp [transferMsg, getConnectionInfo, h, bind, Except.bind]
  refine ⟨hmsg, ?_, ?_⟩
  · have := containsText_of_append "connection not found"
      (": " ++ st.address.chainId ++ "<->" ++ destination.chainId)
    simpa [String.append_assoc] using this
  · simp [transferPacketsSent, hmsg]

/-- C2 witness: transfer of 1 ubld from agoriclocal to the unregistered
chain fakenet rejects with the connection-not-found diagnostic and sends
no packet. -/
theorem transfer_unknown_connection_witness :
    transferMsg exState [] (AmountArg.denomAmount "ubld" 1) fakeDestination none 0
      = Except.error
          ("connection not found: " ++ exState.address.chainId ++ "<->"
            ++ fakeDestination.chainId)
    ∧ containsText
        ("connection not found: " ++ exState.address.chainId ++ "<->"
          ++ fakeDestination.chainId)
        "connection not found" = true
    ∧ transferPacketsSent exState [] (AmountArg.denomAmount "ubld" 1) fakeDestination none 0
        = [] :=
  transfer_unknown_connection_rejects_before_send exState [] "ubld" 1 fakeDestination none 0
    rfl

/-- C2 counterexample to the claim as stated: a transfer whose amount is
an ERTP brand amount, to a destination with no registered connection,
rejects with `ERTP Amounts not yet supported` — a message that does not
contain `connection not found` — because the brand check throws before
the connection lookup. -/
theorem transfer_unknown_connection_claim_cex :
    transferMsg exState [] (AmountArg.ertpAmount "BLD" 1) fakeDestination none 0
      = Except.error "ERTP Amounts not yet supported"
    ∧ containsText "ERTP Amounts not yet supported" "connection not found" = false :=
  ⟨rfl, by decide⟩

/-- C3 (amended): when the executeTx reply holds exactly one result,
delegate resolves with that result; when it holds zero or more than one,
delegate fails — the watcher's interface guard rejects the fulfillment
with its pattern-violation diagnostic before the body's own assertion is
reached — and never resolves with any of the results (no silent pick); a
rejected bridge call propagates. -/
theorem delegate_exactly_one_result {α : Type} :
    (∀ r : α, delegateResult (Except.ok [r]) = Except.ok r)
    ∧ (∀ results : List α, results.length ≠ 1 →
        delegateResult (Except.ok results) = Except.error guardViolationMsg
        ∧ ∀ r ∈ results, delegateResult (Except.ok results) ≠ Except.ok r)
    ∧ (∀ e : String, delegateResult (α := α) (Except.error e) = Except.error e) := by
  refine ⟨fun r => rfl, ?_, fun e => rfl⟩
  intro results h
  have hg : delegateResult (Except.ok results) = Except.error guardViolationMsg := by
    simp [delegateResult, extractFirstResultWatcher, matchesOneRecordArray, bind,
      Except.bind, h]
  exact ⟨hg, fun r _ => by simp [hg]⟩

/-- C3 counterexample to the claim as stated: an empty executeTx reply
makes delegate fail with the interface guard's pattern-violation
diagnostic, whose message does not contain `expected exactly one
result` — the body's assertion is never reached for that input. -/
theorem delegate_zero_results_guard_cex :
    delegateResult (Except.ok ([] : List Nat)) = Except.error guardViolationMsg
    ∧ containsText guardViolationMsg "expected exactly one result" = false :=
  ⟨rfl, by decide⟩

/-- C4: send with an amount lacking a denom, and sendAll with any amount
lacking a denom, reject with `Brands not currently supported.` before
executeTx is invoked: no bridge call is issued and the settled outcome is
that rejection regardless of any bridge reply. -/
theorem send_brand_amount_rejected_before_bridge {α : Type}
    (st : HolderState) (toAccount : ChainAddress) (amount : AmountArg)
    (amounts : List AmountArg) (bridgeReply : Except String α) :
    (hasDenom amount = false →
      sendTxMsgs st toAccount amount
          = Except.error "Brands not currently supported."
        ∧ sendBridgeCalls st toAccount amount = []
        ∧ sendOutcome st toAccount amount bridgeReply
          = Except.error "Brands not currently supported.")
    ∧ ((∃ a ∈ amounts, hasDenom a = false) →
      sendAllTxMsgs st toAccount amounts
          = Except.error "Brands not currently supported."
        ∧ sendAllBridgeCalls st toAccount amounts = []
        ∧ sendAllOutcome st toAccount amounts bridgeReply
          = Except.error "Brands not currently supported.") := by
  constructor
  · intro h
    cases amount with
    | denomAmount d v => simp [hasDenom] at h
    | ertpAmount brand v => exact ⟨rfl, rfl, rfl⟩
  · intro h
    have hc := coinsOf_error_of_missing_denom amounts h
    refine ⟨?_, ?_, ?_⟩ <;>
      simp [sendAllTxMsgs, sendAllBridgeCalls, sendAllOutcome, hc, Except.map]

/-- C5: every transfer that reaches message construction builds a
MsgTransfer whose token is the denom amount with a stringified value,
whose sender is the account's address value and receiver the
destination's value, whose timeoutHeight defaults to zeros and memo to
the empty string, and whose timeoutTimestamp is the supplied one, else 0
when a timeoutHeight was supplied, else the default five minutes from
now in nanoseconds. -/
theorem transfer_msg_construction
    (st : HolderState) (directory : List ((String × String) × ConnectionInfo))
    (denom : String) (value : Nat) (destination : ChainAddress)
    (opts : Option IBCTransferOptions) (nowSeconds : Nat) (msg : MsgTransfer)
    (h : transferMsg st directory (AmountArg.denomAmount denom value)
        destination opts nowSeconds = Except.ok msg) :
    msg.token = { denom := denom, amount := toString value }
    ∧ msg.sender = st.address.value
    ∧ msg.receiver = destination.value
    ∧ msg.timeoutHeight
        = (opts.bind fun o => o.timeoutHeight).getD
            { revisionHeight := 0, revisionNumber := 0 }
    ∧ msg.memo = (opts.bind fun o => o.memo).getD ""
    ∧ msg.timeoutTimestamp
        = (match opts.bind fun o => o.timeoutTimestamp with
           | some t => t
           | none =>
             match opts.bind fun o => o.timeoutHeight with
             | some _ => 0
             | none => (nowSeconds + 5 * 60) * nanosecondsPerSecond) := by
  cases hl : directory.lookup (st.address.chainId, destination.chainId) with
  | none => simp [transferMsg, getConnectionInfo, hl, bind, Except.bind] at h
  | some info =>
    simp [transferMsg, getConnectionInfo, hl, bind, Except.bind] at h
    subst h
    refine ⟨rfl, rfl, rfl, rfl, rfl, ?_⟩
    cases opts with
    | none => rfl
    | some o =>
      cases o.timeoutTimestamp <;> cases ho : o.timeoutHeight <;>
        simp [buildTransferMsg, timeoutTimestampFor, getTimeoutTimestampNS,
          Option.bind, ho]

/-- C5 witness: the example transfer (1000000 ubld to cosmoshub-4, no
options, at time 0) builds exactly exTransferMsg, whose fields satisfy
the construction contract. -/
theorem transfer_msg_construction_witness :
    exTransferMsg.token = { denom := "ubld", amount := toString 1000000 }
    ∧ exTransferMsg.sender = exState.address.value
    ∧ exTransferMsg.receiver = exDestination.value
    ∧ exTransferMsg.timeoutHeight
        = ((none : Option IBCTransferOptions).bind fun o => o.timeoutHeight).getD
            { revisionHeight := 0, revisionNumber := 0 }
    ∧ exTransferMsg.memo
        = ((none : Option IBCTransferOptions).bind fun o => o.memo).getD ""
    ∧ exTransferMsg.timeoutTimestamp
        = (match (none : Option IBCTransferOptions).bind fun o => o.timeoutTimestamp with
           | some t => t
           | none =>
             match (none : Option IBCTransferOptions).bind fun o => o.timeoutHeight with
             | some _ => 0
             | none => (0 + 5 * 60) * nanosecondsPerSecond) :=
  transfer_msg_construction exState exDirectory "ubld" 1000000 exDestination none 0
    exTransferMsg (by rfl)

/-- C6: sendAll over a non-empty all-denom amount list issues exactly one
executeTx call holding a single bank MsgSend whose coin list is the input
amounts in input order, each as denom plus stringified value, addressed
from the account's own address to the target's value; on bridge success
the outcome is void. -/
theorem sendAll_one_executeTx_in_input_order {α : Type}
    (st : HolderState) (toAccount : ChainAddress)
    (pairs : List (String × Nat)) (reply : α)
    (_hne : pairs ≠ []) :
    sendAllBridgeCalls st toAccount
        (pairs.map fun p => AmountArg.denomAmount p.1 p.2)
      = [[CosmosMsg.bankSend
          { amount := pairs.map fun p => Coin.mk p.1 (toString p.2),
            toAddress := toAccount.value,
            fromAddress := st.address.value }]]
    ∧ sendAllOutcome st toAccount
        (pairs.map fun p => AmountArg.denomAmount p.1 p.2)
        (Except.ok reply) = Except.ok () := by
  have hc := coinsOf_denom_list pairs
  constructor
  · simp [sendAllBridgeCalls, sendAllTxMsgs, hc, Except.map]
  · simp [sendAllOutcome, sendAllTxMsgs, hc, Except.map]

/-- C6 witness: sending 10 ubld and 7 uist from the example account
issues one executeTx with one MsgSend listing the two coins in order and
settles with void. -/
theorem sendAll_one_executeTx_witness :
    sendAllBridgeCalls exState exDestination
        (([("ubld", 10), ("uist", 7)] : List (String × Nat)).map
          fun p => AmountArg.denomAmount p.1 p.2)
      = [[CosmosMsg.bankSend
          { amount := ([("ubld", 10), ("uist", 7)] : List (String × Nat)).map
              fun p => Coin.mk p.1 (toString p.2),
            toAddress := exDestination.value,
            fromAddress := exState.address.value }]]
    ∧ sendAllOutcome exState exDestination
        (([("ubld", 10), ("uist", 7)] : List (String × Nat)).map
          fun p => AmountArg.denomAmount p.1 p.2)
        (Except.ok (0 : Nat)) = Except.ok () :=
  sendAll_one_executeTx_in_input_order exState exDestination
    [("ubld", 10), ("uist", 7)] 0 (by decide)

/-- C7: getBalances and transferSteps return rejected vows carrying
`not yet implemented` — they never throw synchronously and never
fulfill — while CloseAccount throws `not yet implemented` synchronously
rather than returning a rejected vow. -/
theorem not_yet_implemented_stubs :
    holderGetBalances = CallResult.vow (Except.error "not yet implemented")
    ∧ (∀ m, holderGetBalances ≠ CallResult.thrown m)
    ∧ (∀ (amount : AmountArg) (msg : String),
        holderTransferSteps amount msg
            = CallResult.vow (Except.error "not yet implemented")
          ∧ ∀ m, holderTransferSteps amount msg ≠ CallResult.thrown m)
    ∧ closeAccountCall = CallResult.thrown "not yet implemented"
    ∧ ∀ s, closeAccountCall ≠ CallResult.vow s := by
  refine ⟨rfl, ?_, fun amount msg => ⟨rfl, ?_⟩, rfl, ?_⟩ <;>
    intro x <;> simp [holderGetBalances, holderTransferSteps, closeAccountCall, asVowOf]

/-- C8: the chain address set at initialization is immutable — every
holder operation returns the state it read, so after any sequence of
operations getAddress still returns the address record supplied at
creation and the account handle is unchanged. -/
theorem holder_ops_never_mutate_address_or_account
    (env : Env) (st : HolderState) (op : HolderOp)
    (account : Nat) (address : ChainAddress) (topicKit packetTools : Nat)
    (ops : List HolderOp) :
    (holderStep env st op).1 = st
    ∧ holderGetAddress
        (holderRun env (initHolderState account address topicKit packetTools) ops)
      = address
    ∧ (holderRun env (initHolderState account address topicKit packetTools) ops).account
      = account := by
  refine ⟨holderStep_state env st op, ?_, ?_⟩ <;>
    rw [holderRun_state] <;> rfl

/-- C9: getVBankAssetInfo caches — after a first fulfilled call the
returned list is stored in state, a second call returns the same list
without issuing another lookup, and on an empty cache the first call
returns and stores exactly the looked-up values. -/
theorem getVBankAssetInfo_caches_first_lookup
    (st : FacadeState) (lookup1 lookup2 : List AssetInfo) :
    ((getVBankAssetInfo st lookup1).1.vbankAssets
        = some (getVBankAssetInfo st lookup1).2.1)
    ∧ (getVBankAssetInfo (getVBankAssetInfo st lookup1).1 lookup2).2.1
        = (getVBankAssetInfo st lookup1).2.1
    ∧ (getVBankAssetInfo (getVBankAssetInfo st lookup1).1 lookup2).2.2 = false
    ∧ (st.vbankAssets = none →
        (getVBankAssetInfo st lookup1).2.1 = lookup1
        ∧ (getVBankAssetInfo st lookup1).2.2 = true) := by
  cases h : st.vbankAssets <;> simp [getVBankAssetInfo, h]

/-- C10: the SingleAmountRecord pattern accepts a record exactly when it
has one string-keyed property whose value matches the Amount shape; the
empty record is rejected, as is any record with two or more
properties. -/
theorem singleAmountRecord_iff_exactly_one_amount
    (r : List (String × Passable)) :
    (matchesSingleAmountRecord r = true ↔
      r.length = 1 ∧ ∀ kv ∈ r, matchesAmountShape kv.2 = true)
    ∧ matchesSingleAmountRecord [] = false
    ∧ (∀ (kv1 kv2 : String × Passable) (rest : List (String × Passable)),
        matchesSingleAmountRecord (kv1 :: kv2 :: rest) = false) := by
  refine ⟨?_, by decide, ?_⟩
  · match r with
    | [] =>
      simp [matchesSingleAmountRecord, matchesRecordOfAmount, matchesNotEmptyRecord]
    | [kv] =>
      simp [matchesSingleAmountRecord, matchesRecordOfAmount, matchesNotEmptyRecord]
    | a :: b :: rest =>
      simp [matchesSingleAmountRecord, matchesRecordOfAmount, matchesNotEmptyRecord]
  · intro kv1 kv2 rest
    simp [matchesSingleAmountRecord, matchesRecordOfAmount, matchesNotEmptyRecord]

end LocalOrch
